import Mathlib

/-!
Shallow embedding of generateGroundTruth.py (RaulPenagos/TFG-Unet).

The Python script loads Configuration.json files describing cylindrical
phantoms, computes a normalized density/opacity per phantom from a fixed
material table (Phantom.set_density), and rasterizes each phantom as a
filled disk on a square grayscale image (PhantomScenario.GenerateImage),
iterating a directory of configuration files (FolderAnalyzer.makeAnalysis).

Modelling conventions: machine floats are modelled as exact rationals,
Python exceptions as an explicit error type, sys.exit() as an early
termination outcome carrying the Python exit status (0 when sys.exit is
called without an argument), and the parsed JSON content of a file as an
explicit data type distinguishing the file-level failure modes the code
checks for (absent file, invalid JSON, missing top-level Phantoms key).
PIL's filled-ellipse primitive is outside the repository; following the
spec's filled-disk contract it is modelled as overwriting exactly the
pixels inside the disk of the computed pixel centre and radius, which is
all the claims about it depend on (determinism from centre/radius/fill,
and overwriting with no blending).
-/

namespace GroundTruth

/-- Python exceptions that the phantom-construction path can raise:
KeyError (missing dict field, lines 135-144), IndexError (taking [0] of an
empty list-comprehension result for an unrecognized material, line 60),
ZeroDivisionError (dividing by a zero maximum opacity, line 62). -/
inductive PyError where
  | keyError (field : String)
  | indexError
  | zeroDivisionError
deriving DecidableEq

/-- Source line 55: the four recognized material names. -/
def materials : List String := ["lung", "brain", "fat", "bone"]

/-- Source line 56: reference volumetric densities in g/cm^3, in the same
order as the materials list. -/
def densities : List ℚ := [0.296, 1.04, 0.92, 1.90]

/-- Python max() over a list, folding the binary max from the left; it is
only ever applied to the nonempty four-element lists above (Python raises
on an empty argument, a case the script never reaches). -/
def pyMax : List ℚ → ℚ
  | [] => 0
  | x :: xs => xs.foldl max x

/-- Index of the first list element equal to the given material name,
mirroring the comprehension of source line 60
([i for i, mat in enumerate(materials) if self.material == mat])
whose head is then taken; none models the IndexError of [..][0] on the
empty result. -/
def firstIndexAux (material : String) : List String → ℕ → Option ℕ
  | [], _ => none
  | m :: rest, i => if material == m then some i else firstIndexAux material rest (i + 1)

/-- Phantom.set_density (source lines 43-62): from the material name and
the axial length zsize, compute the pair (normalized density, normalized
opacity).  The opacity list is the density list scaled by zsize (line 57);
both entries at the material's index are divided by the Python max of
their list (lines 61-62).  Errors: IndexError when the material is not in
the table, ZeroDivisionError when max(opacity) is zero (zsize = 0). -/
def set_density (material : String) (zsize : ℚ) : Except PyError (ℚ × ℚ) :=
  match firstIndexAux material materials 0 with
  | none => .error .indexError
  | some index =>
    if pyMax (densities.map (fun d => d * zsize)) = 0 then .error .zeroDivisionError
    else .ok (densities.getD index 0 / pyMax densities,
      (densities.map (fun d => d * zsize)).getD index 0 / pyMax (densities.map (fun d => d * zsize)))

/-- Phantom (source lines 17-41): raw configuration fields plus the
density and opacity attributes that __init__ computes via set_density. -/
structure Phantom where
  name : String
  material : String
  xPos : ℚ
  yPos : ℚ
  zPos : ℚ
  xDir : ℚ
  yDir : ℚ
  zDir : ℚ
  radius : ℚ
  zsize : ℚ
  density : ℚ
  opacity : ℚ
deriving DecidableEq

/-- One element of the Phantoms array of a configuration file: each
required key either present with its value or absent (none). -/
structure PhantomEntry where
  name : Option String
  material : Option String
  xPos : Option ℚ
  yPos : Option ℚ
  zPos : Option ℚ
  xDir : Option ℚ
  yDir : Option ℚ
  zDir : Option ℚ
  radius : Option ℚ
  zsize : Option ℚ
deriving DecidableEq

/-- Construction of one Phantom from one entry (source lines 134-145):
Python evaluates the ten p[...] accesses in the order written, so the
KeyError names the first missing key; then Phantom.__init__ runs
set_density, whose errors propagate. -/
def readEntry (e : PhantomEntry) : Except PyError Phantom :=
  match e.name with
  | none => .error (.keyError "name")
  | some nm =>
  match e.material with
  | none => .error (.keyError "material")
  | some mat =>
  match e.xPos with
  | none => .error (.keyError "xPos")
  | some x =>
  match e.yPos with
  | none => .error (.keyError "yPos")
  | some y =>
  match e.zPos with
  | none => .error (.keyError "zPos")
  | some z =>
  match e.xDir with
  | none => .error (.keyError "xDir")
  | some dx =>
  match e.yDir with
  | none => .error (.keyError "yDir")
  | some dy =>
  match e.zDir with
  | none => .error (.keyError "zDir")
  | some dz =>
  match e.radius with
  | none => .error (.keyError "radius")
  | some r =>
  match e.zsize with
  | none => .error (.keyError "zsize")
  | some zs =>
  match set_density mat zs with
  | .error err => .error err
  | .ok (d, o) => .ok ⟨nm, mat, x, y, z, dx, dy, dz, r, zs, d, o⟩

/-- Result of loading the phantom list: either the phantoms in file order,
or process termination (sys.exit, lines 147-152) recording the 1-based
number of the offending entry (the printed phantom number i+1) and the
Python exception that was caught. -/
inductive ReadResult where
  | ok (phantoms : List Phantom)
  | fatal (phantomNumber : ℕ) (err : PyError)
deriving DecidableEq

/-- The enumerate loop of source lines 132-152: entries are processed in
order; the first failing entry terminates the process, otherwise the
phantoms are accumulated in order of appearance. -/
def readEntries : ℕ → List PhantomEntry → ReadResult
  | _, [] => .ok []
  | i, e :: rest =>
    match readEntry e with
    | .error err => .fatal (i + 1) err
    | .ok p =>
      match readEntries (i + 1) rest with
      | .fatal j err => .fatal j err
      | .ok ps => .ok (p :: ps)

/-- Content of one configuration file as the reading code distinguishes
it (source lines 113-130): absent file, undecodable JSON, JSON without a
top-level Phantoms key, or a Phantoms array of entries. -/
inductive FileData where
  | missing
  | badJSON
  | noPhantomsKey
  | phantoms (entries : List PhantomEntry)
deriving DecidableEq

/-- PhantomScenario.ReadPhantomsFromConfiguration (source lines 106-152):
all three file-level failures log and leave the scene empty (the batch
continues); entry-level failures terminate the process. -/
def readScene : FileData → ReadResult
  | .missing => .ok []
  | .badJSON => .ok []
  | .noPhantomsKey => .ok []
  | .phantoms es => readEntries 0 es

/-- Python int() conversion: truncation toward zero. -/
def pyInt (x : ℚ) : ℤ := if 0 ≤ x then ⌊x⌋ else ⌈x⌉

/-- Source line 178: opacity = int(255 - p.opacity * 255), the grayscale
fill value of a phantom with the given normalized opacity. -/
def fillGray (opacity : ℚ) : ℤ := pyInt (255 - opacity * 255)

/-- A grayscale raster, pixel coordinates to gray value. -/
def Img : Type := ℤ → ℤ → ℤ

/-- Source line 168: the image starts entirely white (255). -/
def blankImage : Img := fun _ _ => 255

/-- The params dict of source line 245: field-of-view side in cm and
raster side in pixels. -/
structure RenderParams where
  size_cm : ℚ
  px : ℚ

/-- The geometry computed at source lines 175-184: positions and radius
are scaled by n/size (line 176) and the scaled position is offset by the
image centre (n/2, n/2) (lines 165, 183-184).  Result: (pixel centre x,
pixel centre y, pixel radius). -/
def pixelGeom (size n xPos yPos radius : ℚ) : ℚ × ℚ × ℚ :=
  (n / 2 + xPos * n / size, n / 2 + yPos * n / size, radius * n / size)

/-- Modelled from the spec: PIL's ImageDraw.ellipse on the bounding box of
lines 186-187 is an external collaborator; per the spec's filled-disk
contract a pixel is painted exactly when it lies in the closed disk of the
computed pixel centre and pixel radius. -/
def covered (size n : ℚ) (p : Phantom) (i j : ℤ) : Bool :=
  decide (((i : ℚ) - (pixelGeom size n p.xPos p.yPos p.radius).1) ^ 2 +
    ((j : ℚ) - (pixelGeom size n p.xPos p.yPos p.radius).2.1) ^ 2 ≤
    (pixelGeom size n p.xPos p.yPos p.radius).2.2 ^ 2)

/-- Drawing one phantom (lines 175-187): covered pixels take the phantom's
fill value, all others keep their previous value (no blending). -/
def drawPhantom (size n : ℚ) (img : Img) (p : Phantom) : Img :=
  fun i j => if covered size n p i j then fillGray p.opacity else img i j

/-- PhantomScenario.GenerateImage rasterization loop (lines 174-187):
phantoms are drawn onto the blank image in list order. -/
def renderImage (params : RenderParams) (ps : List Phantom) : Img :=
  ps.foldl (drawPhantom params.size_cm params.px) blankImage

/-- First maximal run of consecutive decimal digits in a character list,
the semantics of re.search of a digit run (source line 100). -/
def firstDigitRun : List Char → Option (List Char)
  | [] => none
  | c :: rest =>
    if c.isDigit then some (c :: rest.takeWhile Char.isDigit) else firstDigitRun rest

/-- PhantomScenario.extract_index (source lines 94-104): the matched digit
run as written (leading zeros preserved), else the integer 0.  The label
only ever reaches the output through str(label) in the file name (line
191), so the fallback is modelled directly as the string 0. -/
def extract_index (name : String) : String :=
  match firstDigitRun name.data with
  | some run => String.mk run
  | none => "0"

/-- Substring test on character lists, the semantics of the Python
membership test '.json' in file (source line 228). -/
def hasSubList (p : List Char) : List Char → Bool
  | [] => p.isEmpty
  | c :: rest => p.isPrefixOf (c :: rest) || hasSubList p rest

/-- Whether a file name contains the substring .json (source line 228). -/
def hasJson (s : String) : Bool := hasSubList ".json".data s.data

/-- Source line 191: output path output_dir + /Phantoms_ + label + .png. -/
def outputName (outputDir label : String) : String :=
  outputDir ++ "/Phantoms_" ++ label ++ ".png"

/-- One directory listing entry paired with what loading its path would
yield. -/
structure BatchFile where
  fname : String
  data : FileData

/-- Result of a whole batch run: normal completion, or early termination
by sys.exit with the given exit status; either way the list of images
written before the end, as (file name, image) pairs in order. -/
inductive Outcome where
  | completed (outputs : List (String × Img))
  | exited (code : ℕ) (outputs : List (String × Img))

/-- Record one written output file in front of a batch outcome. -/
def outcomePrepend (nm : String) (img : Img) : Outcome → Outcome
  | .completed outs => .completed ((nm, img) :: outs)
  | .exited c outs => .exited c ((nm, img) :: outs)

/-- FolderAnalyzer.makeAnalysis (source lines 218-231) together with
PhantomScenario.GenerateImage (lines 154-195): every listed file whose
name contains .json is loaded and rendered in turn.  The scenario's label
is extracted from input_dir + / + file (line 229 constructs that path and
line 89 applies extract_index to it).  sys.exit() carries Python exit
status 0: a fatal read error (lines 149, 152) or a failing image save
(line 195, modelled by the writable flag) ends the batch with status 0. -/
def makeAnalysis (params : RenderParams) (writable : Bool) (inputDir outputDir : String) :
    List BatchFile → Outcome
  | [] => .completed []
  | f :: rest =>
    if hasJson f.fname then
      match readScene f.data with
      | .fatal _ _ => .exited 0 []
      | .ok ps =>
        if writable then
          outcomePrepend (outputName outputDir (extract_index (inputDir ++ "/" ++ f.fname)))
            (renderImage params ps)
            (makeAnalysis params writable inputDir outputDir rest)
        else .exited 0 []
    else makeAnalysis params writable inputDir outputDir rest

/-- Exit status of the process for a batch outcome: the sys.exit status on
early termination, 0 on normal completion. -/
def processExitStatus : Outcome → ℕ
  | .completed _ => 0
  | .exited c _ => c

/-- Exit status if the run terminated early, none if it ran to the end. -/
def exitCode : Outcome → Option ℕ
  | .completed _ => none
  | .exited c _ => some c

/-- Names of the output files written during a batch run, in order. -/
def outputNames : Outcome → List String
  | .completed outs => outs.map Prod.fst
  | .exited _ outs => outs.map Prod.fst

/-- The image parameters of source line 245: 25 cm, 512 px. -/
def defaultParams : RenderParams := ⟨25, 512⟩

/-- Two entries agree on everything except possibly zPos and the
direction vector. -/
def sameRender (e1 e2 : PhantomEntry) : Prop :=
  e1.name = e2.name ∧ e1.material = e2.material ∧ e1.xPos = e2.xPos ∧
  e1.yPos = e2.yPos ∧ e1.radius = e2.radius ∧ e1.zsize = e2.zsize

/-- Two phantoms agree on the four attributes rendering reads. -/
def phantomRenderEq (p q : Phantom) : Prop :=
  p.xPos = q.xPos ∧ p.yPos = q.yPos ∧ p.radius = q.radius ∧ p.opacity = q.opacity

/-- Some required key of the entry is absent. -/
def entryMissingField (e : PhantomEntry) : Prop :=
  e.name = none ∨ e.material = none ∨ e.xPos = none ∨ e.yPos = none ∨ e.zPos = none ∨
  e.xDir = none ∨ e.yDir = none ∨ e.zDir = none ∨ e.radius = none ∨ e.zsize = none

/-- An entry with every required key present. -/
def fullEntry (nm mat : String) (x y z dx dy dz r zs : ℚ) : PhantomEntry :=
  ⟨some nm, some mat, some x, some y, some z, some dx, some dy, some dz, some r, some zs⟩

/-- Concrete lung entry used to instantiate hypotheses of the theorems. -/
def sampleEntry : PhantomEntry :=
  ⟨some "a", some "lung", some 0, some 0, some 0, some 0, some 0, some 1, some 1, some 1⟩

/-- The phantom built from sampleEntry: 0.296/1.9 = 74/475 twice. -/
def samplePhantom : Phantom := ⟨"a", "lung", 0, 0, 0, 0, 0, 1, 1, 1, 74/475, 74/475⟩

/-- Like sampleEntry but with different zPos and direction vector. -/
def sampleEntryB : PhantomEntry :=
  ⟨some "a", some "lung", some 0, some 0, some 9, some 1, some 2, some 3, some 1, some 1⟩

/-- The phantom built from sampleEntryB. -/
def samplePhantomB : Phantom := ⟨"a", "lung", 0, 0, 9, 1, 2, 3, 1, 1, 74/475, 74/475⟩

/-- An entry with every required key absent. -/
def emptyEntry : PhantomEntry := ⟨none, none, none, none, none, none, none, none, none, none⟩

/-- An otherwise complete entry whose radius key is absent. -/
def missingRadiusEntry : PhantomEntry :=
  ⟨some "p", some "lung", some 0, some 0, some 0, some 0, some 0, some 1, none, some 1⟩

/-! Helper lemmas. -/

lemma pyMax_densities : pyMax densities = 1.9 := by
  norm_num [pyMax, densities, max_def]

lemma pyMax_opacity (z : ℚ) (hz : 0 < z) :
    pyMax (densities.map (fun d => d * z)) = 1.9 * z := by
  simp only [densities, List.map_cons, List.map_nil, pyMax, List.foldl_cons, List.foldl_nil]
  rw [max_eq_right (by refine max_le (max_le ?_ ?_) ?_ <;> nlinarith)]
  norm_num

lemma getD_map_mul (l : List ℚ) (z : ℚ) (i : ℕ) :
    (l.map (fun d => d * z)).getD i 0 = l.getD i 0 * z := by
  induction l generalizing i with
  | nil => simp
  | cons a l ih =>
    cases i with
    | zero => simp
    | succ n => simpa using ih n

lemma set_density_recognized (mat : String) (i : ℕ) (z : ℚ) (hz : 0 < z)
    (hidx : firstIndexAux mat materials 0 = some i) :
    set_density mat z = .ok (densities.getD i 0 / 1.9, densities.getD i 0 / 1.9) := by
  have hne : (1.9 : ℚ) * z ≠ 0 := by positivity
  simp only [set_density, hidx, pyMax_opacity z hz, pyMax_densities, if_neg hne,
    getD_map_mul, mul_div_mul_right _ _ hz.ne']

lemma readEntries_forall₂ :
    ∀ (es : List PhantomEntry) (i : ℕ) (ps : List Phantom), readEntries i es = .ok ps →
      List.Forall₂ (fun e p => readEntry e = Except.ok p) es ps := by
  intro es
  induction es with
  | nil =>
    intro i ps h
    simp [readEntries] at h
    subst h
    exact List.Forall₂.nil
  | cons e rest ih =>
    intro i ps h
    cases he : readEntry e with
    | error err => simp [readEntries, he] at h
    | ok p =>
      cases hr : readEntries (i + 1) rest with
      | fatal j err => simp [readEntries, he, hr] at h
      | ok ps₂ =>
        simp [readEntries, he, hr] at h
        subst h
        exact List.Forall₂.cons he (ih (i + 1) ps₂ hr)

lemma readEntry_ok_fields {e : PhantomEntry} {p : Phantom} (h : readEntry e = .ok p) :
    e.name = some p.name ∧ e.material = some p.material ∧ e.xPos = some p.xPos ∧
    e.yPos = some p.yPos ∧ e.zPos = some p.zPos ∧ e.xDir = some p.xDir ∧
    e.yDir = some p.yDir ∧ e.zDir = some p.zDir ∧ e.radius = some p.radius ∧
    e.zsize = some p.zsize ∧ set_density p.material p.zsize = .ok (p.density, p.opacity) := by
  obtain ⟨n, m, x, y, z, dx, dy, dz, r, zs⟩ := e
  rcases n with _ | nm
  · simp [readEntry] at h
  rcases m with _ | mat
  · simp [readEntry] at h
  rcases x with _ | xv
  · simp [readEntry] at h
  rcases y with _ | yv
  · simp [readEntry] at h
  rcases z with _ | zv
  · simp [readEntry] at h
  rcases dx with _ | dxv
  · simp [readEntry] at h
  rcases dy with _ | dyv
  · simp [readEntry] at h
  rcases dz with _ | dzv
  · simp [readEntry] at h
  rcases r with _ | rv
  · simp [readEntry] at h
  rcases zs with _ | zsv
  · simp [readEntry] at h
  rcases hsd : set_density mat zsv with err | pr
  · simp [readEntry, hsd] at h
  obtain ⟨d, o⟩ := pr
  simp [readEntry, hsd] at h
  subst h
  exact ⟨rfl, rfl, rfl, rfl, rfl, rfl, rfl, rfl, rfl, rfl, hsd⟩

lemma phantomRenderEq_of {e1 e2 : PhantomEntry} {p1 p2 : Phantom} (hs : sameRender e1 e2)
    (h1 : readEntry e1 = .ok p1) (h2 : readEntry e2 = .ok p2) : phantomRenderEq p1 p2 := by
  obtain ⟨n1, m1, x1, y1, z1, dx1, dy1, dz1, r1, zs1, sd1⟩ := readEntry_ok_fields h1
  obtain ⟨n2, m2, x2, y2, z2, dx2, dy2, dz2, r2, zs2, sd2⟩ := readEntry_ok_fields h2
  obtain ⟨hn, hm, hx, hy, hr, hz⟩ := hs
  have hmat : p1.material = p2.material := Option.some.inj (m1.symm.trans (hm.trans m2))
  have hzs : p1.zsize = p2.zsize := Option.some.inj (zs1.symm.trans (hz.trans zs2))
  refine ⟨Option.some.inj (x1.symm.trans (hx.trans x2)),
    Option.some.inj (y1.symm.trans (hy.trans y2)),
    Option.some.inj (r1.symm.trans (hr.trans r2)), ?_⟩
  have h12 : (Except.ok (p1.density, p1.opacity) : Except PyError (ℚ × ℚ)) =
      .ok (p2.density, p2.opacity) := by
    rw [← sd1, ← sd2, hmat, hzs]
  exact congrArg Prod.snd (Except.ok.inj h12)

lemma readEntries_renderEq {es1 es2 : List PhantomEntry} (hf : List.Forall₂ sameRender es1 es2) :
    ∀ i1 i2 ps1 ps2, readEntries i1 es1 = .ok ps1 → readEntries i2 es2 = .ok ps2 →
      List.Forall₂ phantomRenderEq ps1 ps2 := by
  induction hf with
  | nil =>
    intro i1 i2 ps1 ps2 h1 h2
    simp [readEntries] at h1 h2
    subst h1
    subst h2
    exact List.Forall₂.nil
  | @cons a b l1 l2 hs hf ih =>
    intro i1 i2 ps1 ps2 h1 h2
    cases hea : readEntry a with
    | error err => simp [readEntries, hea] at h1
    | ok p =>
      cases hra : readEntries (i1 + 1) l1 with
      | fatal j err => simp [readEntries, hea, hra] at h1
      | ok psa =>
        cases heb : readEntry b with
        | error err => simp [readEntries, heb] at h2
        | ok q =>
          cases hrb : readEntries (i2 + 1) l2 with
          | fatal j err => simp [readEntries, heb, hrb] at h2
          | ok psb =>
            simp [readEntries, hea, hra] at h1
            simp [readEntries, heb, hrb] at h2
            subst h1
            subst h2
            exact List.Forall₂.cons (phantomRenderEq_of hs hea heb) (ih _ _ _ _ hra hrb)

lemma drawPhantom_congr (size n : ℚ) (img : Img) {p q : Phantom} (h : phantomRenderEq p q) :
    drawPhantom size n img p = drawPhantom size n img q := by
  obtain ⟨hx, hy, hr, ho⟩ := h
  funext i j
  simp only [drawPhantom, covered, pixelGeom, hx, hy, hr, ho]

lemma foldl_draw_congr (size n : ℚ) {ps1 ps2 : List Phantom}
    (h : List.Forall₂ phantomRenderEq ps1 ps2) :
    ∀ img, ps1.foldl (drawPhantom size n) img = ps2.foldl (drawPhantom size n) img := by
  induction h with
  | nil => intro img; rfl
  | cons h1 h2 ih =>
    intro img
    simp only [List.foldl_cons]
    rw [drawPhantom_congr size n img h1]
    exact ih _

lemma forall2_exists_left {α β : Type} {R : α → β → Prop} :
    ∀ {l1 : List α} {l2 : List β}, List.Forall₂ R l1 l2 → ∀ {a}, a ∈ l1 → ∃ b, R a b := by
  intro l1 l2 h
  induction h with
  | nil => intro a ha; simp at ha
  | cons h1 h2 ih =>
    intro a ha
    rcases List.mem_cons.mp ha with rfl | ha₂
    · exact ⟨_, h1⟩
    · exact ih ha₂

lemma readEntry_not_ok_of_missing {e : PhantomEntry} {p : Phantom}
    (hm : entryMissingField e) : readEntry e ≠ Except.ok p := by
  intro h
  obtain ⟨h1, h2, h3, h4, h5, h6, h7, h8, h9, h10, _⟩ := readEntry_ok_fields h
  rcases hm with hh | hh | hh | hh | hh | hh | hh | hh | hh | hh <;> simp_all

lemma data_append (a b : String) : (a ++ b).data = a.data ++ b.data := by
  cases a; cases b; rfl

lemma firstDigitRun_append {l1 : List Char} (h : ∀ c ∈ l1, c.isDigit = false) (l2 : List Char) :
    firstDigitRun (l1 ++ l2) = firstDigitRun l2 := by
  induction l1 with
  | nil => rfl
  | cons c l ih =>
    have hc := h c (by simp)
    simp only [List.cons_append, firstDigitRun, hc, Bool.false_eq_true, if_false]
    exact ih fun c₂ hc₂ => h c₂ (by simp [hc₂])

lemma readScene_sample : readScene (.phantoms [sampleEntry]) = .ok [samplePhantom] := by
  simp [readScene, readEntries, readEntry, sampleEntry, samplePhantom, set_density,
    firstIndexAux, materials, densities, pyMax]
  norm_num [max_def]

lemma readScene_sampleB : readScene (.phantoms [sampleEntryB]) = .ok [samplePhantomB] := by
  simp [readScene, readEntries, readEntry, sampleEntryB, samplePhantomB, set_density,
    firstIndexAux, materials, densities, pyMax]
  norm_num [max_def]

/-! Claim theorems. -/

/-- Claim C1: for every recognized material and every strictly positive
axial length, the normalized opacity computed by the scale-then-normalize
path of set_density equals the normalized density, i.e. set_density
returns a pair with equal components. -/
theorem normalizedOpacity_eq_normalizedDensity (mat : String) (z : ℚ)
    (hmat : mat ∈ materials) (hz : 0 < z) :
    ∃ d, set_density mat z = .ok (d, d) := by
  have h : mat = "lung" ∨ mat = "brain" ∨ mat = "fat" ∨ mat = "bone" := by
    simpa [materials] using hmat
  rcases h with h | h | h | h <;> subst h
  · exact ⟨_, set_density_recognized _ 0 z hz rfl⟩
  · exact ⟨_, set_density_recognized _ 1 z hz rfl⟩
  · exact ⟨_, set_density_recognized _ 2 z hz rfl⟩
  · exact ⟨_, set_density_recognized _ 3 z hz rfl⟩

/-- Witness for C1 at material brain and zsize 2. -/
theorem opacity_density_witness : ∃ d, set_density "brain" 2 = Except.ok (d, d) :=
  normalizedOpacity_eq_normalizedDensity "brain" 2 (by decide) (by norm_num)

/-- Claim C2, counterexample: at material fat (normalized opacity 46/95)
the code's fill intensity int(255 - opacity * 255) is 131, while the
nearest integer to 255 - opacity * 255 is 132, so the fill intensity is
not round(255 - opacity * 255). -/
theorem fill_intensity_not_round :
    set_density "fat" 1 = .ok (46/95, 46/95) ∧ fillGray (46/95) = 131 ∧
      round ((255 : ℚ) - 46/95 * 255) = 132 ∧ (131 : ℤ) ≠ 132 := by
  refine ⟨?_, ?_, ?_, by norm_num⟩
  · simp [set_density, firstIndexAux, materials, densities, pyMax]
    norm_num [max_def]
  · rw [fillGray, pyInt, if_pos (by norm_num)]
    norm_num [Int.floor_eq_iff]
  · rw [round_eq]
    norm_num [Int.floor_eq_iff]

/-- Claim C2 as amended: for opacities in [0, 1] the fill intensity is the
floor (truncation) of 255 - opacity * 255, not the nearest integer;
opacity 0 still maps to 255 and opacity 1 to 0. -/
theorem fill_intensity_truncates (o : ℚ) (h0 : 0 ≤ o) (h1 : o ≤ 1) :
    fillGray o = ⌊(255 : ℚ) - o * 255⌋ ∧ fillGray 0 = 255 ∧ fillGray 1 = 0 := by
  refine ⟨?_, ?_, ?_⟩
  · rw [fillGray, pyInt, if_pos (by nlinarith)]
  · norm_num [fillGray, pyInt]
  · norm_num [fillGray, pyInt]

/-- Witness for the amended C2 at the fat opacity 46/95. -/
theorem fill_intensity_truncates_witness :
    fillGray (46/95) = ⌊(255 : ℚ) - 46/95 * 255⌋ ∧ fillGray 0 = 255 ∧ fillGray 1 = 0 :=
  fill_intensity_truncates (46/95) (by norm_num) (by norm_num)

/-- Claim C3: the pixel-space centre is (n/2 + xPos n/size, n/2 + yPos
n/size) and the pixel radius is radius n/size; at xPos = yPos = 0,
radius = 5, size = 25, n = 512 this is centre (256, 256), radius 102.4. -/
theorem projection_geometry :
    (∀ size n x y r : ℚ, pixelGeom size n x y r =
      (n / 2 + x * n / size, n / 2 + y * n / size, r * n / size)) ∧
    pixelGeom 25 512 0 0 5 = (256, 256, 102.4) := by
  refine ⟨fun _ _ _ _ _ => rfl, ?_⟩
  norm_num [pixelGeom]

/-- Claim C4, counterexample: the batch driver derives the label from the
concatenated path input_dir + / + file, so with input directory dir7 and
configuration file scan_042.json the output is Phantoms_7.png, not the
Phantoms_042.png that the first digit run of the file name would give. -/
theorem label_uses_directory_digits :
    outputNames (makeAnalysis defaultParams true "dir7" "out"
      [⟨"scan_042.json", FileData.noPhantomsKey⟩]) = ["out/Phantoms_7.png"] ∧
    extract_index "scan_042.json" = "042" ∧
    ("out/Phantoms_7.png" : String) ≠ "out/Phantoms_042.png" := by
  exact ⟨rfl, rfl, by decide⟩

/-- Claim C4 as amended: the label is the first digit run of the full
path input_dir + / + file name (leading zeros preserved, 0 when there are
no digits), which coincides with the first digit run of the file's own
name whenever the input directory part contains no digits. -/
theorem label_from_full_path :
    (∀ dir f : String, (∀ c ∈ dir.data, c.isDigit = false) →
      extract_index (dir ++ "/" ++ f) = extract_index f) ∧
    extract_index "scan_042.json" = "042" ∧ extract_index "plain.json" = "0" := by
  refine ⟨?_, rfl, rfl⟩
  intro dir f h
  have hd : (dir ++ "/" ++ f).data = (dir.data ++ ['/']) ++ f.data := by
    rw [data_append, data_append]
  have hnd : ∀ c ∈ dir.data ++ ['/'], c.isDigit = false := by
    intro c hc
    rcases List.mem_append.mp hc with h1 | h1
    · exact h c h1
    · simp at h1
      subst h1
      rfl
  simp only [extract_index, hd, firstDigitRun_append hnd]

/-- Witness for the amended C4 with a digit-free input directory. -/
theorem label_path_witness :
    extract_index ("configs" ++ "/" ++ "scan_042.json") = extract_index "scan_042.json" :=
  label_from_full_path.1 "configs" "scan_042.json" (by decide)

/-- Claim C5, counterexample: a batch whose single configuration file has
an entry with a missing radius key terminates early, and so does a batch
with an unwritable output directory, but in both cases the exit status is
0 (sys.exit is called with no argument), not a non-zero status. -/
theorem exit_code_zero_on_missing_field :
    exitCode (makeAnalysis defaultParams true "in" "out"
      [⟨"a.json", .phantoms [missingRadiusEntry]⟩]) = some 0 ∧
    exitCode (makeAnalysis defaultParams false "in" "out" [⟨"a.json", .noPhantomsKey⟩]) = some 0 :=
  ⟨rfl, rfl⟩

/-- Claim C5 as amended: the process exit status is 0 in every case; fatal
errors (missing required field, unwritable output directory) terminate the
batch early but sys.exit without an argument still reports status 0, so
success is not distinguishable from failure by exit status. -/
theorem exit_status_always_zero (params : RenderParams) (w : Bool) (dir out : String)
    (files : List BatchFile) : processExitStatus (makeAnalysis params w dir out files) = 0 := by
  induction files with
  | nil => rfl
  | cons f rest ih =>
    simp only [makeAnalysis]
    split
    · split
      · rfl
      · split
        · cases h : makeAnalysis params w dir out rest <;>
            simp_all [outcomePrepend, processExitStatus]
        · rfl
    · exact ih

/-- Claim C6: loading is asymmetric.  File-level failures (missing file,
invalid JSON, missing Phantoms key) yield an empty scene and the batch
continues to the next file, while any entry with a missing required field
makes the whole process terminate (exit status 0, no phantom list). -/
theorem file_errors_skipped_entry_errors_fatal :
    (∀ d : FileData, d = .missing ∨ d = .badJSON ∨ d = .noPhantomsKey → readScene d = .ok [])
    ∧ (∀ es e, e ∈ es → entryMissingField e → ∀ ps, readScene (.phantoms es) ≠ ReadResult.ok ps)
    ∧ (∀ (params : RenderParams) (dir out f : String) (d : FileData) (rest : List BatchFile),
        (d = .missing ∨ d = .badJSON ∨ d = .noPhantomsKey) → hasJson f = true →
        makeAnalysis params true dir out (⟨f, d⟩ :: rest) =
          outcomePrepend (outputName out (extract_index (dir ++ "/" ++ f)))
            (renderImage params []) (makeAnalysis params true dir out rest))
    ∧ (∀ (params : RenderParams) (w : Bool) (dir out f : String) (es : List PhantomEntry)
        (rest : List BatchFile), hasJson f = true → (∃ e ∈ es, entryMissingField e) →
        makeAnalysis params w dir out (⟨f, .phantoms es⟩ :: rest) = .exited 0 []) := by
  have hfatal : ∀ es e, e ∈ es → entryMissingField e → ∀ ps,
      readScene (.phantoms es) ≠ ReadResult.ok ps := by
    intro es e hmem hmiss ps hok
    obtain ⟨p, hp⟩ := forall2_exists_left (readEntries_forall₂ es 0 ps hok) hmem
    exact readEntry_not_ok_of_missing hmiss hp
  refine ⟨?_, hfatal, ?_, ?_⟩
  · intro d h
    rcases h with h | h | h <;> subst h <;> rfl
  · intro params dir out f d rest h hjson
    rcases h with h | h | h <;> subst h <;> simp [makeAnalysis, hjson, readScene]
  · intro params w dir out f es rest hjson hmiss
    obtain ⟨e, hmem, hm⟩ := hmiss
    cases hres : readScene (.phantoms es) with
    | ok ps => exact absurd hres (hfatal es e hmem hm ps)
    | fatal j err => simp [makeAnalysis, hjson, hres]

/-- Witness for C6: each conjunct instantiated at concrete inputs. -/
theorem asymmetry_witness :
    readScene FileData.missing = .ok [] ∧
    (readScene (.phantoms [emptyEntry]) ≠ ReadResult.ok []) ∧
    makeAnalysis defaultParams true "in" "out" [⟨"a.json", .badJSON⟩] =
      outcomePrepend (outputName "out" (extract_index ("in" ++ "/" ++ "a.json")))
        (renderImage defaultParams []) (makeAnalysis defaultParams true "in" "out" []) ∧
    makeAnalysis defaultParams true "in" "out" [⟨"a.json", .phantoms [emptyEntry]⟩] =
      .exited 0 [] :=
  ⟨file_errors_skipped_entry_errors_fatal.1 FileData.missing (Or.inl rfl),
   file_errors_skipped_entry_errors_fatal.2.1 [emptyEntry] emptyEntry (by simp) (Or.inl rfl) [],
   file_errors_skipped_entry_errors_fatal.2.2.1 defaultParams "in" "out" "a.json" FileData.badJSON
     [] (Or.inr (Or.inl rfl)) rfl,
   file_errors_skipped_entry_errors_fatal.2.2.2 defaultParams true "in" "out" "a.json"
     [emptyEntry] [] rfl ⟨emptyEntry, by simp, Or.inl rfl⟩⟩

/-- Claim C7: for every recognized material and positive axial length the
normalized density lies in (0, 1], and bone yields exactly 1. -/
theorem normalizedDensity_unit_bone_one (mat : String) (z : ℚ)
    (hmat : mat ∈ materials) (hz : 0 < z) :
    ∃ d o, set_density mat z = .ok (d, o) ∧ 0 < d ∧ d ≤ 1 ∧ (mat = "bone" → d = 1) := by
  have h : mat = "lung" ∨ mat = "brain" ∨ mat = "fat" ∨ mat = "bone" := by
    simpa [materials] using hmat
  rcases h with h | h | h | h <;> subst h
  · exact ⟨_, _, set_density_recognized _ 0 z hz rfl, by norm_num [densities], by
      norm_num [densities], by simp⟩
  · exact ⟨_, _, set_density_recognized _ 1 z hz rfl, by norm_num [densities], by
      norm_num [densities], by simp⟩
  · exact ⟨_, _, set_density_recognized _ 2 z hz rfl, by norm_num [densities], by
      norm_num [densities], by simp⟩
  · exact ⟨_, _, set_density_recognized _ 3 z hz rfl, by norm_num [densities], by
      norm_num [densities], by norm_num [densities]⟩

/-- Witness for C7 at material bone and zsize 3. -/
theorem density_unit_witness :
    ∃ d o, set_density "bone" 3 = Except.ok (d, o) ∧ 0 < d ∧ d ≤ 1 ∧ ("bone" = "bone" → d = 1) :=
  normalizedDensity_unit_bone_one "bone" 3 (by decide) (by norm_num)

/-- Claim C8: phantoms are kept in their order of appearance (a successful
load corresponds entrywise, in order, to the entry list), and drawing a
later phantom overwrites every pixel it covers regardless of what earlier
phantoms put there (no blending), leaving other pixels unchanged. -/
theorem later_phantoms_occlude :
    (∀ es ps, readScene (.phantoms es) = .ok ps →
      List.Forall₂ (fun e p => readEntry e = Except.ok p) es ps) ∧
    (∀ (params : RenderParams) (ps : List Phantom) (p : Phantom) (i j : ℤ),
      renderImage params (ps ++ [p]) i j =
        if covered params.size_cm params.px p i j then fillGray p.opacity
        else renderImage params ps i j) := by
  constructor
  · intro es ps h
    exact readEntries_forall₂ es 0 ps h
  · intro params ps p i j
    simp [renderImage, List.foldl_append, drawPhantom]

/-- Witness for C8: the order part at a one-entry scene and the occlusion
part at two overlapping phantoms and the centre pixel. -/
theorem occlusion_witness :
    List.Forall₂ (fun e p => readEntry e = Except.ok p) [sampleEntry] [samplePhantom] ∧
    renderImage defaultParams ([samplePhantom] ++ [samplePhantomB]) 256 256 =
      (if covered defaultParams.size_cm defaultParams.px samplePhantomB 256 256 then
        fillGray samplePhantomB.opacity else renderImage defaultParams [samplePhantom] 256 256) :=
  ⟨later_phantoms_occlude.1 [sampleEntry] [samplePhantom] readScene_sample,
   later_phantoms_occlude.2 defaultParams [samplePhantom] samplePhantomB 256 256⟩

/-- Claim C9: the rendered image does not depend on zPos or the direction
vector: two scenes whose entries agree on name, material, xPos, yPos,
radius and zsize (zPos and the direction fields free) render to identical
images. -/
theorem render_ignores_zPos_direction (params : RenderParams) (es1 es2 : List PhantomEntry)
    (ps1 ps2 : List Phantom) (hsame : List.Forall₂ sameRender es1 es2)
    (h1 : readScene (.phantoms es1) = .ok ps1) (h2 : readScene (.phantoms es2) = .ok ps2) :
    renderImage params ps1 = renderImage params ps2 :=
  foldl_draw_congr _ _ (readEntries_renderEq hsame 0 0 ps1 ps2 h1 h2) blankImage

/-- Witness for C9: two one-phantom scenes differing only in zPos and
direction vector render identically. -/
theorem render_ignores_witness :
    renderImage defaultParams [samplePhantom] = renderImage defaultParams [samplePhantomB] :=
  render_ignores_zPos_direction defaultParams [sampleEntry] [sampleEntryB]
    [samplePhantom] [samplePhantomB]
    (List.Forall₂.cons ⟨rfl, rfl, rfl, rfl, rfl, rfl⟩ List.Forall₂.nil)
    readScene_sample readScene_sampleB

/-- Claim C10: an entry with a recognized material and zsize 0 makes
set_density raise ZeroDivisionError, which is not a KeyError so only the
generic handler catches it, and the whole batch terminates (exit status 0)
instead of producing an opacity. -/
theorem zero_zsize_fatal (nm mat : String) (x y z dx dy dz r : ℚ) (hmat : mat ∈ materials)
    (params : RenderParams) (w : Bool) (dir out fname : String) (rest : List BatchFile)
    (hjson : hasJson fname = true) :
    set_density mat 0 = .error .zeroDivisionError ∧
    readEntry (fullEntry nm mat x y z dx dy dz r 0) = .error .zeroDivisionError ∧
    readScene (.phantoms [fullEntry nm mat x y z dx dy dz r 0]) = .fatal 1 .zeroDivisionError ∧
    (∀ fld, PyError.zeroDivisionError ≠ PyError.keyError fld) ∧
    makeAnalysis params w dir out (⟨fname, .phantoms [fullEntry nm mat x y z dx dy dz r 0]⟩ :: rest)
      = .exited 0 [] := by
  have h1 : set_density mat 0 = .error .zeroDivisionError := by
    have h : mat = "lung" ∨ mat = "brain" ∨ mat = "fat" ∨ mat = "bone" := by
      simpa [materials] using hmat
    rcases h with h | h | h | h <;> subst h <;>
      simp [set_density, firstIndexAux, materials, densities, pyMax]
  have h2 : readEntry (fullEntry nm mat x y z dx dy dz r 0) = .error .zeroDivisionError := by
    simp [readEntry, fullEntry, h1]
  have h3 : readScene (.phantoms [fullEntry nm mat x y z dx dy dz r 0]) =
      .fatal 1 .zeroDivisionError := by
    simp [readScene, readEntries, h2]
  refine ⟨h1, h2, h3, ?_, ?_⟩
  · intro fld hcontra
    cases hcontra
  · simp [makeAnalysis, hjson, h3]

/-- Witness for C10 at material fat, a fully populated entry, and a
single-file batch. -/
theorem zero_zsize_witness :
    set_density "fat" 0 = .error .zeroDivisionError ∧
    readEntry (fullEntry "p" "fat" 0 0 0 0 0 1 1 0) = .error .zeroDivisionError ∧
    readScene (.phantoms [fullEntry "p" "fat" 0 0 0 0 0 1 1 0]) = .fatal 1 .zeroDivisionError ∧
    (∀ fld, PyError.zeroDivisionError ≠ PyError.keyError fld) ∧
    makeAnalysis defaultParams true "in" "out"
      [⟨"c1.json", .phantoms [fullEntry "p" "fat" 0 0 0 0 0 1 1 0]⟩] = .exited 0 [] :=
  zero_zsize_fatal "p" "fat" 0 0 0 0 0 1 1 (by decide) defaultParams true "in" "out" "c1.json"
    [] rfl

end GroundTruth
